import Mathlib

/-
Verification of the tool dispatch and query-construction layer of a
PostgreSQL MCP server (src/server.py).  The five tools (execute_query,
list_tables, get_table_schema, filter_instances, get_database_stats) are
shallowly embedded as Lean functions over an explicit environment (the
connection oracle plus a model of the database catalog) and an explicit
state (the trace of connection/executor events, plus the caller-visible
filters mapping, which the source mutates).  Exceptions raised and caught
by the try/except blocks of the source are modelled with Except; the
catch-all handler of each tool becomes the runTool wrapper.
-/

namespace PgMcp

/-! ## Python string primitives used by the SELECT check (server.py line 69) -/

/-- ASCII whitespace recognised by the Python str.strip default
(space, tab, newline, carriage return, vertical tab, form feed). -/
def pyIsSpace (c : Char) : Bool :=
  c.toNat = 32 || c.toNat = 9 || c.toNat = 10 || c.toNat = 13 ||
  c.toNat = 11 || c.toNat = 12

/-- ASCII lowercasing of one character, as Python str.lower does on ASCII. -/
def pyToLower (c : Char) : Char :=
  if 65 ≤ c.toNat ∧ c.toNat ≤ 90 then Char.ofNat (c.toNat + 32) else c

/-- Python str.strip with default argument: drop whitespace at both ends. -/
def pyStrip (cs : List Char) : List Char :=
  ((cs.dropWhile pyIsSpace).reverse.dropWhile pyIsSpace).reverse

/-- Python str.lower, character by character. -/
def pyLower (cs : List Char) : List Char := cs.map pyToLower

/-- Python str.startswith on character lists. -/
def startsWithChars : List Char → List Char → Bool
  | [], _ => true
  | _ :: _, [] => false
  | p :: ps, c :: cs => (p == c) && startsWithChars ps cs

/-- The guard of server.py line 69:
query.strip().lower().startswith of the word select. -/
def checkSelect (cs : List Char) : Bool :=
  startsWithChars ("select".data) (pyLower (pyStrip cs))

/-! ## Values and Python-style result payloads -/

/-- Scalar database cell values. -/
inductive Value where
  | vNull
  | vStr (s : String)
  | vInt (n : Int)
  | vBool (b : Bool)
deriving DecidableEq

/-- Python values returned by the tools: scalars, lists, and
insertion-ordered dicts. -/
inductive PyVal where
  | vNone
  | vStr (s : String)
  | vInt (n : Int)
  | vBool (b : Bool)
  | vList (xs : List PyVal)
  | vDict (entries : List (String × PyVal))

def valToPyVal : Value → PyVal
  | Value.vNull => PyVal.vNone
  | Value.vStr s => PyVal.vStr s
  | Value.vInt n => PyVal.vInt n
  | Value.vBool b => PyVal.vBool b

/-- The uniform error payload built by every except branch of the source. -/
def errDict (msg : String) : PyVal :=
  PyVal.vDict [("error", PyVal.vStr msg)]

/-- Key list of a dict payload, in insertion order. -/
def pyDictKeys : PyVal → Option (List String)
  | PyVal.vDict es => some (es.map Prod.fst)
  | _ => none

/-- Length of a list payload. -/
def pyListLen : PyVal → Option Nat
  | PyVal.vList xs => some xs.length
  | _ => none

/-! ## Python dict insertion semantics (record building loops) -/

/-- Python dict item assignment: replace in place when the key exists,
append otherwise. -/
def dictInsert (d : List (String × α)) (k : String) (v : α) :
    List (String × α) :=
  if d.any (fun p => p.1 == k) then
    d.map (fun p => if p.1 == k then (k, v) else p)
  else d ++ [(k, v)]

/-- Effect of one dict assignment on the key list. -/
def insertKey (ks : List String) (k : String) : List String :=
  if ks.any (fun x => x == k) then ks else ks ++ [k]

/-- Effect of a sequence of dict assignments on the key list. -/
def insertKeys (ks : List String) : List String → List String
  | [] => ks
  | c :: cs => insertKeys (insertKey ks c) cs

/-! ## Result normalizer (the row formatting loops at server.py
lines 87-92 and 217-222) -/

/-- One pass of the loop: for i, col in enumerate of column_names,
record at col becomes row at i.  Walking the column list and the row in
step visits exactly row index i at the i-th column; exhausting the row
first is the IndexError Python would raise. -/
def formatRowAux :
    List String → List Value → List (String × Value) →
    Except String (List (String × Value))
  | [], _, rec => Except.ok rec
  | _ :: _, [], _ => Except.error "tuple index out of range"
  | c :: cs, v :: vs, rec => formatRowAux cs vs (dictInsert rec c v)

/-- The outer loop over fetched rows, producing one record per row in
fetch order; the first failing row aborts the tool (caught by the
except handler). -/
def formatResults (cols : List String) :
    List (List Value) → Except String (List (List (String × Value)))
  | [] => Except.ok []
  | r :: rs =>
    match formatRowAux cols r [] with
    | Except.error e => Except.error e
    | Except.ok rec =>
      match formatResults cols rs with
      | Except.error e => Except.error e
      | Except.ok recs => Except.ok (rec :: recs)

/-- A finished record rendered as a Python dict value. -/
def recordToPyVal (rec : List (String × Value)) : PyVal :=
  PyVal.vDict (rec.map (fun p => (p.1, valToPyVal p.2)))

/-! ## Model of the database catalog and the executor -/

/-- One row of information_schema.columns. -/
structure ColumnInfo where
  table_schema : String
  table_name : String
  column_name : String
  data_type : String
  is_nullable : String
  column_default : Option String
  ordinal_position : Nat
deriving DecidableEq

/-- One row of information_schema.tables. -/
structure TableInfo where
  table_schema : String
  table_name : String
deriving DecidableEq

/-- Catalog and statistics model backing the fixed queries. -/
structure DBModel where
  columns : List ColumnInfo
  tables : List TableInfo
  relSize : String → Int
  sizePretty : Int → String
  dbSize : Int
  version : String

/-- What cursor.execute plus fetchall plus cursor.description yield. -/
structure ExecResult where
  description : List String
  rows : List (List Value)

/-- Per-invocation environment: the outcome of database_connection and
the executor oracle for dynamically built SQL, plus the catalog model
answering the fixed queries. -/
structure Env where
  connectResult : Except String Unit
  runQuery : String → List Value → Except String ExecResult
  db : DBModel

/-! ## Events, state, and the tool boundary -/

/-- Observable connection and executor events of one invocation. -/
inductive Event where
  | connOpen
  | connClose
  | exec (sql : String) (params : List Value)
deriving DecidableEq

/-- Invocation state: the event trace and the caller-visible filters
mapping (mutated in place by filter_instances). -/
structure St where
  trace : List Event
  filters : List (String × String)
deriving DecidableEq

def addEvent (s : St) (e : Event) : St :=
  St.mk (s.trace ++ [e]) s.filters

/-- A tool body: state in, Except-style outcome and state out. -/
def M (α : Type) : Type := St → Except String α × St

/-- The try/except boundary of each tool: a raised error becomes the
uniform error payload (server.py lines 95-97 and the analogous
handlers). -/
def runTool (core : M PyVal) (fs : List (String × String)) : PyVal × St :=
  match core (St.mk [] fs) with
  | (Except.ok v, s) => (v, s)
  | (Except.error e, s) => (errDict e, s)

/-- Projection of one event onto its executor content, if any. -/
def execEventOf : Event → Option (String × List Value)
  | Event.exec q ps => some (q, ps)
  | _ => none

/-- Executor events of a trace, with their SQL and bound parameters. -/
def execEvents (t : List Event) : List (String × List Value) :=
  t.filterMap execEventOf

/-- SQL texts sent to the executor during a trace. -/
def execSQLs (t : List Event) : List String :=
  (execEvents t).map Prod.fst

/-- Statement of the tool boundary guarantee: the wrapped tool either
returns the successful value of its body, or the uniform single-key
error payload carrying the raised message. -/
def toolConverts (core : M PyVal) (fs : List (String × String)) : Prop :=
  (∃ v s, core (St.mk [] fs) = (Except.ok v, s) ∧ runTool core fs = (v, s)) ∨
  (∃ e s, core (St.mk [] fs) = (Except.error e, s) ∧
    runTool core fs = (errDict e, s) ∧
    pyDictKeys (errDict e) = some ["error"])

/-! ## SQL text construction for filter_instances (server.py 189-206) -/

/-- Python string join with the AND separator. -/
def joinAnd (xs : List String) : String := String.intercalate " AND " xs

/-- Loop of lines 192-194: every mapping entry, including table_name,
contributes a clause. -/
def whereClauses (fs : List (String × String)) : List String :=
  fs.map (fun p => p.1 ++ " = %s")

/-- Loop of lines 192-194: every mapping value, including the table
name, is appended to the bound parameter list. -/
def filterParams (fs : List (String × String)) : List Value :=
  fs.map (fun p => Value.vStr p.2)

/-- Lines 203-206: the table name is interpolated into the text; the
WHERE suffix is appended when the clause list is nonempty. -/
def filterSQL (where_clauses : List String) (table_name : String) : String :=
  if where_clauses.isEmpty then "SELECT * FROM " ++ table_name
  else "SELECT * FROM " ++ table_name ++ " WHERE " ++ joinAnd where_clauses

/-- Python dict.pop: the value at the key together with the mapping
with that entry removed, or none when the key is absent. -/
def lookupRemove (k : String) :
    List (String × String) → Option (String × List (String × String))
  | [] => none
  | p :: rest =>
    if p.1 == k then some (p.2, rest)
    else
      match lookupRemove k rest with
      | some (v, rest2) => some (v, p :: rest2)
      | none => none

/-- The value stored under table_name, when present. -/
def tableNameValue (fs : List (String × String)) : Option String :=
  (lookupRemove "table_name" fs).map (fun p => p.1)

/-- A single-quote character (U+0027) as a string. -/
def sq : String := String.mk [Char.ofNat 39]

/-- Message of the ValueError at server.py line 200; the key is quoted
with U+0027 in the source text. -/
def requiredMsg : String :=
  sq ++ "table_name" ++ sq ++ " is required in filters parameter"

/-- Message of the ValueError at server.py line 70. -/
def selectOnlyMsg : String := "Only SELECT queries are allowed."

/-! ## Executor semantics of the fixed catalog queries -/

/-- Meaning of the schema query at lines 144-149: rows of
information_schema.columns with the given table_name (note: no
table_schema restriction appears in the SQL), ordered by
ordinal_position. -/
def runSchemaQuery (db : DBModel) (t : String) : List ColumnInfo :=
  List.insertionSort (fun a b => a.ordinal_position ≤ b.ordinal_position)
    (db.columns.filter (fun c => c.table_name == t))

def optStr : Option String → PyVal
  | none => PyVal.vNone
  | some s => PyVal.vStr s

/-- Record built at lines 153-158 for one catalog row. -/
def schemaRecord (c : ColumnInfo) : PyVal :=
  PyVal.vDict
    [("column_name", PyVal.vStr c.column_name),
     ("data_type", PyVal.vStr c.data_type),
     ("is_nullable", PyVal.vStr c.is_nullable),
     ("default_value", optStr c.column_default)]

/-- Rows of information_schema.tables in the public schema. -/
def publicTables (db : DBModel) : List TableInfo :=
  db.tables.filter (fun t => t.table_schema == "public")

/-- Meaning of the largest-tables query at lines 260-271: public
tables ordered by total relation size descending, limited to five. -/
def largestTablesQuery (db : DBModel) : List TableInfo :=
  (List.insertionSort
    (fun a b => db.relSize b.table_name ≤ db.relSize a.table_name)
    (publicTables db)).take 5

/-- Meaning of the list query at lines 112-117: public table names in
ascending name order. -/
def listTablesQuery (db : DBModel) : List TableInfo :=
  List.insertionSort (fun a b => a.table_name ≤ b.table_name)
    (publicTables db)

/-! ## The five tools (server.py lines 53-286) -/

/-- Body of execute_query (lines 67-94): guard, connect, execute,
read description, close, format.  The raise at line 70 and the later
failures all surface as the Except error component; the state records
which effects had happened by then. -/
def execute_query_core (env : Env) (query : String) : M PyVal := fun s0 =>
  if checkSelect query.data = false then
    (Except.error selectOnlyMsg, s0)
  else
    match env.connectResult with
    | Except.error e => (Except.error e, s0)
    | Except.ok _ =>
      let s1 := addEvent s0 Event.connOpen
      let s2 := addEvent s1 (Event.exec query [])
      match env.runQuery query [] with
      | Except.error e => (Except.error e, s2)
      | Except.ok r =>
        let s3 := addEvent s2 Event.connClose
        match formatResults r.description r.rows with
        | Except.error e => (Except.error e, s3)
        | Except.ok recs =>
          (Except.ok (PyVal.vList (recs.map recordToPyVal)), s3)

/-- The execute_query tool with its except boundary. -/
def execute_query (env : Env) (query : String) : PyVal × St :=
  runTool (execute_query_core env query) []

/-- Body of list_tables (lines 107-123). -/
def list_tables_core (env : Env) : M PyVal := fun s0 =>
  match env.connectResult with
  | Except.error e => (Except.error e, s0)
  | Except.ok _ =>
    let s1 := addEvent s0 Event.connOpen
    let tables := (listTablesQuery env.db).map
      (fun t => PyVal.vStr t.table_name)
    let s2 := addEvent s1 Event.connClose
    (Except.ok (PyVal.vList tables), s2)

/-- The list_tables tool with its except boundary. -/
def list_tables (env : Env) : PyVal × St :=
  runTool (list_tables_core env) []

/-- Body of get_table_schema (lines 139-163). -/
def get_table_schema_core (env : Env) (table_name : String) : M PyVal :=
  fun s0 =>
  match env.connectResult with
  | Except.error e => (Except.error e, s0)
  | Except.ok _ =>
    let s1 := addEvent s0 Event.connOpen
    let columns := (runSchemaQuery env.db table_name).map schemaRecord
    let s2 := addEvent s1 Event.connClose
    (Except.ok (PyVal.vList columns), s2)

/-- The get_table_schema tool with its except boundary. -/
def get_table_schema (env : Env) (table_name : String) : PyVal × St :=
  runTool (get_table_schema_core env table_name) []

/-- Body of filter_instances (lines 184-224), in source order:
connect (185), build clauses and params from the whole mapping
(189-196), check for the table_name key (199), pop it (202), build the
statement text (203-206), execute with the bound parameters (208),
read the description, close (214), format (217-224). -/
def filter_instances_core (env : Env) : M PyVal := fun s0 =>
  match env.connectResult with
  | Except.error e => (Except.error e, s0)
  | Except.ok _ =>
    let s1 := addEvent s0 Event.connOpen
    let where_clauses := whereClauses s1.filters
    let params := filterParams s1.filters
    if s1.filters.any (fun p => p.1 == "table_name") = false then
      (Except.error requiredMsg, s1)
    else
      match lookupRemove "table_name" s1.filters with
      | none => (Except.error (sq ++ "table_name" ++ sq), s1)
      | some (table_name, rest) =>
        let s2 := St.mk s1.trace rest
        let query := filterSQL where_clauses table_name
        let s3 := addEvent s2 (Event.exec query params)
        match env.runQuery query params with
        | Except.error e => (Except.error e, s3)
        | Except.ok r =>
          let s4 := addEvent s3 Event.connClose
          match formatResults r.description r.rows with
          | Except.error e => (Except.error e, s4)
          | Except.ok recs =>
            (Except.ok (PyVal.vList (recs.map recordToPyVal)), s4)

/-- The filter_instances tool with its except boundary; the second
component of the result carries the final event trace and the final
contents of the caller-supplied mapping. -/
def filter_instances (env : Env) (filters : List (String × String)) :
    PyVal × St :=
  runTool (filter_instances_core env) filters

/-- Body of get_database_stats (lines 243-283): the four fixed
statements and the manually assembled top-level mapping. -/
def get_database_stats_core (env : Env) : M PyVal := fun s0 =>
  match env.connectResult with
  | Except.error e => (Except.error e, s0)
  | Except.ok _ =>
    let s1 := addEvent s0 Event.connOpen
    let db_size := env.db.sizePretty env.db.dbSize
    let table_count :=
      (env.db.tables.filter (fun t => t.table_schema == "public")).length
    let version := env.db.version
    let largest_tables := (largestTablesQuery env.db).map
      (fun t => PyVal.vDict
        [("table", PyVal.vStr t.table_name),
         ("size", PyVal.vStr (env.db.sizePretty (env.db.relSize t.table_name)))])
    let s2 := addEvent s1 Event.connClose
    (Except.ok (PyVal.vDict
      [("database_size", PyVal.vStr db_size),
       ("table_count", PyVal.vInt (table_count : Int)),
       ("postgres_version", PyVal.vStr version),
       ("largest_tables", PyVal.vList largest_tables)]), s2)

/-- The get_database_stats tool with its except boundary. -/
def get_database_stats (env : Env) : PyVal × St :=
  runTool (get_database_stats_core env) []

/-! ## Concrete environments used in closed theorems -/

/-- Empty catalog model. -/
def emptyDB : DBModel :=
  DBModel.mk [] [] (fun _ => 0) (fun _ => "0 bytes") 0 "PostgreSQL"

/-- Environment whose connection succeeds and whose executor answers
every statement with an empty result set. -/
def envOk : Env :=
  Env.mk (Except.ok ())
    (fun _ _ => Except.ok (ExecResult.mk [] [])) emptyDB

/-- Environment whose connection succeeds and whose executor rejects
every statement. -/
def envExecFail : Env :=
  Env.mk (Except.ok ())
    (fun _ _ => Except.error "relation missing_table does not exist")
    emptyDB

/-- Catalog with a table named t in the public schema and another
table named t in a different schema, one column each. -/
def envTwoSchemas : Env :=
  Env.mk (Except.ok ()) (fun _ _ => Except.ok (ExecResult.mk [] []))
    (DBModel.mk
      [ColumnInfo.mk "public" "t" "a" "integer" "NO" none 1,
       ColumnInfo.mk "other" "t" "x" "text" "YES" none 1]
      [TableInfo.mk "public" "t", TableInfo.mk "other" "t"]
      (fun _ => 0) (fun _ => "8 kB") 0 "PostgreSQL 16.2")

/-- Catalog with three public tables of distinct sizes. -/
def envStats : Env :=
  Env.mk (Except.ok ()) (fun _ _ => Except.ok (ExecResult.mk [] []))
    (DBModel.mk []
      [TableInfo.mk "public" "a", TableInfo.mk "public" "b",
       TableInfo.mk "public" "c", TableInfo.mk "other" "z"]
      (fun n => if n == "b" then 30 else if n == "a" then 20 else 10)
      (fun k => toString k ++ " kB") 999 "PostgreSQL 16.2")

/-- Two filter mappings over the same key set in different orders. -/
def fOrder1 : List (String × String) :=
  [("table_name", "t"), ("a", "1"), ("b", "2")]

/-- The same entries as fOrder1 with the non-table entries swapped. -/
def fOrder2 : List (String × String) :=
  [("table_name", "t"), ("b", "2"), ("a", "1")]

/-- Sample rows for the normalizer: each row at least as long as the
column list, with null values present. -/
def sampleRows : List (List Value) :=
  [[Value.vNull, Value.vInt 1],
   [Value.vStr "x", Value.vNull, Value.vInt 2]]

/-! ## Helper lemmas -/

theorem keys_map_update (d : List (String × α)) (k : String) (v : α) :
    (d.map (fun p => if p.1 == k then (k, v) else p)).map Prod.fst =
      d.map Prod.fst := by
  induction d with
  | nil => rfl
  | cons p rest ih =>
    simp only [List.map_cons, ih]
    cases hp : p.1 == k with
    | false => simp
    | true =>
      have hk : p.1 = k := beq_iff_eq.mp hp
      simp [hp, hk]

theorem any_map_fst (d : List (String × α)) (k : String) :
    ((d.map Prod.fst).any fun x => x == k) = d.any fun p => p.1 == k := by
  induction d with
  | nil => rfl
  | cons p t ih => simp [List.any_cons, ih]

theorem dictInsert_keys (d : List (String × α)) (k : String) (v : α) :
    (dictInsert d k v).map Prod.fst = insertKey (d.map Prod.fst) k := by
  unfold dictInsert insertKey
  rw [any_map_fst]
  by_cases h : (d.any fun p => p.1 == k) = true
  · rw [if_pos h, if_pos h, keys_map_update]
  · rw [if_neg h, if_neg h, List.map_append]
    rfl

theorem formatRowAux_keys :
    ∀ (cs : List String) (vs : List Value) (rec : List (String × Value)),
      cs.length ≤ vs.length →
      ∃ out, formatRowAux cs vs rec = Except.ok out ∧
        out.map Prod.fst = insertKeys (rec.map Prod.fst) cs
  | [], vs, rec, _ => ⟨rec, rfl, rfl⟩
  | c :: cs, [], rec, h => absurd h (by simp)
  | c :: cs, v :: vs, rec, h => by
    obtain ⟨out, heq, hkeys⟩ :=
      formatRowAux_keys cs vs (dictInsert rec c v) (Nat.le_of_succ_le_succ h)
    refine ⟨out, heq, ?_⟩
    rw [hkeys, dictInsert_keys]
    rfl

theorem insertKeys_eq_append :
    ∀ (cols ks : List String), cols.Nodup →
      (∀ c ∈ cols, ks.any (fun x => x == c) = false) →
      insertKeys ks cols = ks ++ cols
  | [], ks, _, _ => by simp [insertKeys]
  | c :: cs, ks, hnd, habs => by
    have hc : ks.any (fun x => x == c) = false := habs c (List.mem_cons_self c cs)
    have hkey : insertKey ks c = ks ++ [c] := by simp [insertKey, hc]
    have hnd2 : cs.Nodup := (List.nodup_cons.mp hnd).2
    have hcn : c ∉ cs := (List.nodup_cons.mp hnd).1
    have habs2 : ∀ x ∈ cs, (ks ++ [c]).any (fun y => y == x) = false := by
      intro x hx
      rw [List.any_append]
      have h1 : ks.any (fun y => y == x) = false :=
        habs x (List.mem_cons_of_mem c hx)
      have h2 : (c == x) = false := by
        cases hcx : c == x with
        | false => rfl
        | true => exact absurd (beq_iff_eq.mp hcx ▸ hx) hcn
      simp [h1, h2]
    calc insertKeys ks (c :: cs) = insertKeys (ks ++ [c]) cs := by
          rw [insertKeys, hkey]
      _ = (ks ++ [c]) ++ cs := insertKeys_eq_append cs (ks ++ [c]) hnd2 habs2
      _ = ks ++ c :: cs := by simp

theorem lookupRemove_any {k : String} :
    ∀ {fs : List (String × String)} {v : String}
      {rest : List (String × String)},
      lookupRemove k fs = some (v, rest) →
      fs.any (fun p => p.1 == k) = true := by
  intro fs
  induction fs with
  | nil => intro v rest h; exact Option.noConfusion h
  | cons p t ih =>
    intro v rest h
    rw [List.any_cons]
    unfold lookupRemove at h
    split at h
    · next hp => rw [hp, Bool.true_or]
    · next hp =>
      split at h
      · next v2 rest2 heq => rw [ih heq, Bool.or_true]
      · exact Option.noConfusion h

theorem lookupRemove_mem {k : String} :
    ∀ {fs : List (String × String)} {v : String}
      {rest : List (String × String)},
      lookupRemove k fs = some (v, rest) → (k, v) ∈ fs := by
  intro fs
  induction fs with
  | nil => intro v rest h; exact Option.noConfusion h
  | cons p t ih =>
    intro v rest h
    unfold lookupRemove at h
    split at h
    · next hp =>
      injection h with h2
      have hk : p.1 = k := beq_iff_eq.mp hp
      have hv : p.2 = v := congrArg Prod.fst h2
      apply List.mem_cons.mpr
      left
      rw [← hk, ← hv]
    · next hp =>
      split at h
      · next v2 rest2 heq =>
        injection h with h2
        have hv : v2 = v := congrArg Prod.fst h2
        exact List.mem_cons_of_mem p (hv ▸ ih heq)
      · exact Option.noConfusion h

theorem whereClauses_eq_keys (fs : List (String × String)) :
    whereClauses fs = (fs.map Prod.fst).map (fun k => k ++ " = %s") := by
  rw [whereClauses, List.map_map]
  rfl

/-- Complete description of one filter_instances invocation whose
connection succeeds and whose mapping holds the table_name key: the
executed statement is built over the whole original mapping, all the
original values (the table name included) are bound as parameters, and
the final mapping is the original one with the table_name entry
removed. -/
theorem filter_instances_run (env : Env) (g : List (String × String))
    (v : String) (rest : List (String × String))
    (hc : env.connectResult = Except.ok ())
    (hp : lookupRemove "table_name" g = some (v, rest)) :
    ∃ tail : List Event,
      (filter_instances env g).2 =
        St.mk (Event.connOpen ::
          Event.exec (filterSQL (whereClauses g) v) (filterParams g) ::
          tail) rest ∧
      (tail = [] ∨ tail = [Event.connClose]) := by
  have hany : g.any (fun p => p.1 == "table_name") = true := lookupRemove_any hp
  unfold filter_instances runTool filter_instances_core
  simp only [hc, addEvent, hany, hp, Bool.true_eq_false, if_false,
    List.nil_append]
  cases hr : env.runQuery (filterSQL (whereClauses g) v) (filterParams g) with
  | error e => exact ⟨[], rfl, Or.inl rfl⟩
  | ok r =>
    dsimp only
    cases hf : formatResults r.description r.rows with
    | error e => exact ⟨[Event.connClose], rfl, Or.inr rfl⟩
    | ok recs => exact ⟨[Event.connClose], rfl, Or.inr rfl⟩

/-! ## Claims -/

/-- Claim C1 (code bug): the claim says filter_instances removes
table_name from the mapping before building filter clauses, so that
only the remaining entries become equality clauses, and that a lone
table_name entry yields an unfiltered SELECT.  The code builds the
clauses first (lines 192-194) and pops table_name afterwards
(line 202), so the executed statement filters on a table_name column
and binds the table name as a parameter: at the failing input
the statement is SELECT * FROM widgets WHERE table_name = %s AND
region = %s with parameters [widgets, us-west-1], and for the lone
table_name mapping a WHERE clause is still emitted. -/
theorem claim1_code_bug :
    execEvents (filter_instances envOk
        [("table_name", "widgets"), ("region", "us-west-1")]).2.trace =
      [("SELECT * FROM widgets WHERE table_name = %s AND region = %s",
        [Value.vStr "widgets", Value.vStr "us-west-1"])] ∧
    execEvents (filter_instances envOk [("table_name", "widgets")]).2.trace =
      [("SELECT * FROM widgets WHERE table_name = %s",
        [Value.vStr "widgets"])] :=
  ⟨rfl, rfl⟩

/-- Claim C2: a query that fails the trimmed, case-folded
select-in-front check yields exactly the Only SELECT queries are
allowed error payload with an empty trace (no connection opened, no
statement executed); a query that passes the check is sent to the
executor once the connection succeeds. -/
theorem claim2 (env : Env) (query : String) :
    (checkSelect query.data = false →
      execute_query env query = (errDict selectOnlyMsg, St.mk [] [])) ∧
    (checkSelect query.data = true → env.connectResult = Except.ok () →
      Event.exec query [] ∈ (execute_query env query).2.trace) := by
  constructor
  · intro h
    unfold execute_query runTool execute_query_core
    rw [h]
    rfl
  · intro h hc
    unfold execute_query runTool execute_query_core
    simp only [h, Bool.true_eq_false, if_false, hc, addEvent,
      List.nil_append]
    cases hr : env.runQuery query [] with
    | error e => simp
    | ok r =>
      dsimp only
      cases hf : formatResults r.description r.rows with
      | error e => simp
      | ok recs => simp

/-- Witness for claim C2 at concrete inputs: a DROP statement is
rejected with the exact payload and an empty trace, and a select
statement reaches the executor. -/
theorem claim2_witness :
    execute_query envOk "DROP TABLE t" = (errDict selectOnlyMsg, St.mk [] []) ∧
    Event.exec "select 1" [] ∈ (execute_query envOk "select 1").2.trace :=
  ⟨(claim2 envOk "DROP TABLE t").1 (by decide),
   (claim2 envOk "select 1").2 (by decide) rfl⟩

theorem runTool_converts (core : M PyVal) (fs : List (String × String)) :
    toolConverts core fs := by
  unfold toolConverts
  cases h : core (St.mk [] fs) with
  | mk res s =>
    cases res with
    | ok v => exact Or.inl ⟨v, s, rfl, by unfold runTool; rw [h]⟩
    | error e => exact Or.inr ⟨e, s, rfl, by unfold runTool; rw [h], rfl⟩

/-- Claim C4: at the boundary of every tool, any failure raised at any
stage (connection, validation, execution, normalization) is converted
into the single-key error payload and nothing propagates past the
try/except wrapper. -/
theorem claim4 (env : Env) (q t : String) (fs : List (String × String)) :
    toolConverts (execute_query_core env q) [] ∧
    toolConverts (list_tables_core env) [] ∧
    toolConverts (get_table_schema_core env t) [] ∧
    toolConverts (filter_instances_core env) fs ∧
    toolConverts (get_database_stats_core env) [] :=
  ⟨runTool_converts _ _, runTool_converts _ _, runTool_converts _ _,
   runTool_converts _ _, runTool_converts _ _⟩

/-- Claim C7: when the filters mapping has no table_name key, the tool
returns exactly the required-key error payload (when the connection,
which the source opens before validating, succeeds) and no statement
is ever sent to the executor. -/
theorem claim7 (env : Env) (filters : List (String × String))
    (hk : filters.any (fun p => p.1 == "table_name") = false) :
    (env.connectResult = Except.ok () →
      (filter_instances env filters).1 = errDict requiredMsg) ∧
    execEvents (filter_instances env filters).2.trace = [] := by
  constructor
  · intro hc
    unfold filter_instances runTool filter_instances_core
    simp [hc, addEvent, hk]
  · cases hc : env.connectResult with
    | error e =>
      unfold filter_instances runTool filter_instances_core
      rw [hc]
      rfl
    | ok u =>
      unfold filter_instances runTool filter_instances_core
      rw [hc]
      simp [addEvent, hk, execEvents, execEventOf]

/-- Witness for claim C7: a mapping without table_name gets the exact
message and the trace holds no executor event. -/
theorem claim7_witness :
    (filter_instances envOk [("region", "x")]).1 = errDict requiredMsg ∧
    execEvents (filter_instances envOk [("region", "x")]).2.trace = [] :=
  ⟨(claim7 envOk [("region", "x")] (by decide)).1 rfl,
   (claim7 envOk [("region", "x")] (by decide)).2⟩

/-- Claim C9 (code bug): the claim says a connection opened before a
failure is released before the error payload is returned.  The source
has no close call on any failure path: when the executor rejects a
statement after the connection opened, the tool returns the error
payload with a trace that opened the connection and never closed
it. -/
theorem claim9_code_bug :
    execute_query envExecFail "select * from t" =
      (errDict "relation missing_table does not exist",
       St.mk [Event.connOpen, Event.exec "select * from t" []] []) ∧
    Event.connClose ∉
      [Event.connOpen, Event.exec "select * from t" []] :=
  ⟨rfl, by decide⟩

/-- Claim C10: filter_instances pops table_name out of the caller
supplied mapping as a side effect (the result state carries the
mapping with that entry removed), and it does so only after the whole
mapping, table_name included, has been read to build the WHERE
clauses and the parameter list of the executed statement. -/
theorem claim10 (env : Env) (filters : List (String × String))
    (v : String) (rest : List (String × String))
    (hc : env.connectResult = Except.ok ())
    (hp : lookupRemove "table_name" filters = some (v, rest)) :
    (filter_instances env filters).2.filters = rest ∧
    "table_name = %s" ∈ whereClauses filters ∧
    Event.exec (filterSQL (whereClauses filters) v) (filterParams filters) ∈
      (filter_instances env filters).2.trace := by
  obtain ⟨tail, hst, -⟩ := filter_instances_run env filters v rest hc hp
  refine ⟨?_, ?_, ?_⟩
  · rw [hst]
  · exact List.mem_map.mpr ⟨("table_name", v), lookupRemove_mem hp, rfl⟩
  · rw [hst]
    simp

/-- Witness for claim C10 at a concrete mapping: the a entry survives,
table_name is gone, and the executed statement was built from both
entries. -/
theorem claim10_witness :
    (filter_instances envOk [("table_name", "t"), ("a", "1")]).2.filters =
      [("a", "1")] ∧
    "table_name = %s" ∈ whereClauses [("table_name", "t"), ("a", "1")] ∧
    Event.exec
      (filterSQL (whereClauses [("table_name", "t"), ("a", "1")]) "t")
      (filterParams [("table_name", "t"), ("a", "1")]) ∈
      (filter_instances envOk [("table_name", "t"), ("a", "1")]).2.trace :=
  claim10 envOk [("table_name", "t"), ("a", "1")] "t" [("a", "1")] rfl rfl

theorem execSQLs_of_run (env : Env) (g : List (String × String))
    (v : String) (rest : List (String × String))
    (hc : env.connectResult = Except.ok ())
    (hp : lookupRemove "table_name" g = some (v, rest)) :
    execSQLs (filter_instances env g).2.trace =
      [filterSQL (whereClauses g) v] := by
  obtain ⟨tail, hst, htail⟩ := filter_instances_run env g v rest hc hp
  rw [hst]
  rcases htail with h | h <;> subst h <;> rfl

/-- Claim C8, counterexample to the claim as stated: two filters
mappings over the same key SET with the same table_name value but a
different insertion order generate different SQL texts, because the
clause order follows the mapping iteration order. -/
theorem claim8_counterexample :
    (fOrder1.map Prod.fst).toFinset = (fOrder2.map Prod.fst).toFinset ∧
    tableNameValue fOrder1 = tableNameValue fOrder2 ∧
    execSQLs (filter_instances envOk fOrder1).2.trace =
      ["SELECT * FROM t WHERE table_name = %s AND a = %s AND b = %s"] ∧
    execSQLs (filter_instances envOk fOrder2).2.trace =
      ["SELECT * FROM t WHERE table_name = %s AND b = %s AND a = %s"] ∧
    ("SELECT * FROM t WHERE table_name = %s AND a = %s AND b = %s" : String) ≠
      "SELECT * FROM t WHERE table_name = %s AND b = %s AND a = %s" :=
  ⟨by decide, rfl, rfl, rfl, by decide⟩

/-- Claim C8 as amended: filter values travel only through the bound
parameter list; for two mappings with the same key SEQUENCE and the
same table_name value, the SQL text sent to the executor is identical
whatever the other values are, and it is determined by the key list
and the table name alone. -/
theorem claim8 (env1 env2 : Env) (g1 g2 : List (String × String))
    (v : String) (r1 r2 : List (String × String))
    (hkeys : g1.map Prod.fst = g2.map Prod.fst)
    (h1 : lookupRemove "table_name" g1 = some (v, r1))
    (h2 : lookupRemove "table_name" g2 = some (v, r2))
    (hc1 : env1.connectResult = Except.ok ())
    (hc2 : env2.connectResult = Except.ok ()) :
    execSQLs (filter_instances env1 g1).2.trace =
      execSQLs (filter_instances env2 g2).2.trace ∧
    execSQLs (filter_instances env1 g1).2.trace =
      [filterSQL (whereClauses g1) v] := by
  have e1 := execSQLs_of_run env1 g1 v r1 hc1 h1
  have e2 := execSQLs_of_run env2 g2 v r2 hc2 h2
  have hw : whereClauses g1 = whereClauses g2 := by
    rw [whereClauses_eq_keys, whereClauses_eq_keys, hkeys]
  constructor
  · rw [e1, e2, hw]
  · exact e1

/-- Witness for claim C8: same keys in the same order, different
values for the a column, identical SQL text. -/
theorem claim8_witness :
    execSQLs (filter_instances envOk
        [("table_name", "t"), ("a", "1")]).2.trace =
      execSQLs (filter_instances envOk
        [("table_name", "t"), ("a", "2")]).2.trace ∧
    execSQLs (filter_instances envOk
        [("table_name", "t"), ("a", "1")]).2.trace =
      [filterSQL (whereClauses [("table_name", "t"), ("a", "1")]) "t"] :=
  claim8 envOk envOk [("table_name", "t"), ("a", "1")]
    [("table_name", "t"), ("a", "2")] "t" [("a", "1")] [("a", "2")]
    rfl rfl rfl rfl rfl

/-- Claim C5: for rows each at least as long as the column list,
normalization succeeds with one record per row in fetch order, and
every record carries the same key list, the one the column sequence
induces under dict assignment; with distinct column names that key
list is exactly the column list in description order. -/
theorem claim5 (cols : List String) (rows : List (List Value))
    (h : ∀ r ∈ rows, cols.length ≤ r.length) :
    ∃ recs, formatResults cols rows = Except.ok recs ∧
      List.Forall₂
        (fun r rec => formatRowAux cols r [] = Except.ok rec) rows recs ∧
      recs.length = rows.length ∧
      (∀ rec ∈ recs, rec.map Prod.fst = insertKeys [] cols) ∧
      (cols.Nodup → ∀ rec ∈ recs, rec.map Prod.fst = cols) := by
  induction rows with
  | nil =>
    exact ⟨[], rfl, List.Forall₂.nil, rfl, by simp, fun _ => by simp⟩
  | cons r rs ih =>
    obtain ⟨out, hout, hkeys⟩ :=
      formatRowAux_keys cols r [] (h r (List.mem_cons_self r rs))
    obtain ⟨recs, hrecs, hfa, hlen, hks, hnd⟩ :=
      ih (fun x hx => h x (List.mem_cons_of_mem r hx))
    refine ⟨out :: recs, ?_, List.Forall₂.cons hout hfa,
      by simp [hlen], ?_, ?_⟩
    · unfold formatResults
      rw [hout, hrecs]
    · intro rec hrec
      rcases List.mem_cons.mp hrec with h1 | h1
      · rw [h1]
        exact hkeys
      · exact hks rec h1
    · intro hnodup rec hrec
      have hcols : insertKeys [] cols = cols :=
        (insertKeys_eq_append cols [] hnodup (fun c _ => rfl)).trans
          (List.nil_append cols)
      rcases List.mem_cons.mp hrec with h1 | h1
      · rw [h1, hkeys]
        exact hcols
      · exact hnd hnodup rec h1

/-- Witness for claim C5: two columns, two rows with nulls, the second
row longer than the column list. -/
theorem claim5_witness :
    ∃ recs, formatResults ["a", "b"] sampleRows = Except.ok recs ∧
      List.Forall₂
        (fun r rec => formatRowAux ["a", "b"] r [] = Except.ok rec)
        sampleRows recs ∧
      recs.length = sampleRows.length ∧
      (∀ rec ∈ recs, rec.map Prod.fst = insertKeys [] ["a", "b"]) ∧
      (List.Nodup ["a", "b"] →
        ∀ rec ∈ recs, rec.map Prod.fst = ["a", "b"]) :=
  claim5 ["a", "b"] sampleRows (by decide)

/-- Claim C3, counterexample to the claim as stated: the schema query
filters only on table_name, not on table_schema, so with a table t in
the public schema (one column) and another table t elsewhere (one
column) the tool returns two records while table t in schema public
has one column. -/
theorem claim3_counterexample :
    pyListLen ((get_table_schema envTwoSchemas "t").1) = some 2 ∧
    (envTwoSchemas.db.columns.filter
      (fun c => c.table_schema == "public" && c.table_name == "t")).length
      = 1 :=
  ⟨rfl, rfl⟩

/-- Claim C3 as amended: get_table_schema returns records with exactly
the keys column_name, data_type, is_nullable, default_value, ordered
by ordinal position, and the row count equals the number of rows of
information_schema.columns with the given table_name across ALL
schemas (the statement has no table_schema filter). -/
theorem claim3 (env : Env) (t : String)
    (hc : env.connectResult = Except.ok ()) :
    (get_table_schema env t).1 =
      PyVal.vList ((runSchemaQuery env.db t).map schemaRecord) ∧
    (runSchemaQuery env.db t).length =
      (env.db.columns.filter (fun c => c.table_name == t)).length ∧
    List.Sorted (fun a b => a.ordinal_position ≤ b.ordinal_position)
      (runSchemaQuery env.db t) ∧
    ∀ r ∈ (runSchemaQuery env.db t).map schemaRecord,
      pyDictKeys r =
        some ["column_name", "data_type", "is_nullable", "default_value"] := by
  refine ⟨?_, ?_, ?_, ?_⟩
  · unfold get_table_schema runTool get_table_schema_core
    rw [hc]
  · exact (List.perm_insertionSort _ _).length_eq
  · haveI : IsTotal ColumnInfo
        (fun a b => a.ordinal_position ≤ b.ordinal_position) :=
      ⟨fun a b => Nat.le_total _ _⟩
    haveI : IsTrans ColumnInfo
        (fun a b => a.ordinal_position ≤ b.ordinal_position) :=
      ⟨fun a b c h1 h2 => Nat.le_trans h1 h2⟩
    exact List.sorted_insertionSort _ _
  · intro r hr
    obtain ⟨c, -, rfl⟩ := List.mem_map.mp hr
    rfl

/-- Witness for claim C3 on the two-schema catalog. -/
theorem claim3_witness :
    (get_table_schema envTwoSchemas "t").1 =
      PyVal.vList ((runSchemaQuery envTwoSchemas.db "t").map schemaRecord) ∧
    List.Sorted (fun a b => a.ordinal_position ≤ b.ordinal_position)
      (runSchemaQuery envTwoSchemas.db "t") :=
  ⟨(claim3 envTwoSchemas "t" rfl).1, (claim3 envTwoSchemas "t" rfl).2.2.1⟩

/-- Claim C6: on success get_database_stats returns a mapping with
exactly the keys database_size, table_count, postgres_version,
largest_tables in that order, and largest_tables comes from at most
five public tables sorted descending by total relation size. -/
theorem claim6 (env : Env) (hc : env.connectResult = Except.ok ()) :
    (get_database_stats env).1 = PyVal.vDict
      [("database_size", PyVal.vStr (env.db.sizePretty env.db.dbSize)),
       ("table_count", PyVal.vInt
         (((env.db.tables.filter
             (fun t => t.table_schema == "public")).length : Int))),
       ("postgres_version", PyVal.vStr env.db.version),
       ("largest_tables", PyVal.vList ((largestTablesQuery env.db).map
         (fun t => PyVal.vDict
           [("table", PyVal.vStr t.table_name),
            ("size", PyVal.vStr
              (env.db.sizePretty (env.db.relSize t.table_name)))])))] ∧
    pyDictKeys (get_database_stats env).1 =
      some ["database_size", "table_count", "postgres_version",
            "largest_tables"] ∧
    (largestTablesQuery env.db).length ≤ 5 ∧
    List.Sorted
      (fun a b => env.db.relSize b.table_name ≤ env.db.relSize a.table_name)
      (largestTablesQuery env.db) := by
  have h1 : (get_database_stats env).1 = PyVal.vDict
      [("database_size", PyVal.vStr (env.db.sizePretty env.db.dbSize)),
       ("table_count", PyVal.vInt
         (((env.db.tables.filter
             (fun t => t.table_schema == "public")).length : Int))),
       ("postgres_version", PyVal.vStr env.db.version),
       ("largest_tables", PyVal.vList ((largestTablesQuery env.db).map
         (fun t => PyVal.vDict
           [("table", PyVal.vStr t.table_name),
            ("size", PyVal.vStr
              (env.db.sizePretty (env.db.relSize t.table_name)))])))] := by
    unfold get_database_stats runTool get_database_stats_core
    rw [hc]
  refine ⟨h1, ?_, ?_, ?_⟩
  · rw [h1]
    rfl
  · unfold largestTablesQuery
    rw [List.length_take]
    exact Nat.min_le_left _ _
  · haveI : IsTotal TableInfo (fun a b =>
        env.db.relSize b.table_name ≤ env.db.relSize a.table_name) :=
      ⟨fun a b => Int.le_total _ _⟩
    haveI : IsTrans TableInfo (fun a b =>
        env.db.relSize b.table_name ≤ env.db.relSize a.table_name) :=
      ⟨fun a b c h1 h2 => Int.le_trans h2 h1⟩
    exact List.Pairwise.sublist (List.take_sublist 5 _)
      (List.sorted_insertionSort _ _)

/-- Witness for claim C6 on a four-table catalog. -/
theorem claim6_witness :
    (largestTablesQuery envStats.db).length ≤ 5 ∧
    pyDictKeys (get_database_stats envStats).1 =
      some ["database_size", "table_count", "postgres_version",
            "largest_tables"] :=
  ⟨(claim6 envStats rfl).2.2.1, (claim6 envStats rfl).2.1⟩

end PgMcp
